import Mathlib

/-!
Shallow embedding of the InspireWorks IVR demo system (src/app.py), a Flask
application that answers Plivo webhook callbacks with PlivoXML documents and
exposes a `/make-call` endpoint that places one outbound call via Plivo's
REST client.

Modelling conventions:
* PlivoXML elements (`Speak`, `Play`, `Hangup`, `Redirect`, `GetDigits`,
  `Dial`) become the inductive `XmlEl`; a response document is the list of
  children of the top-level `ResponseElement`.
* Environment-derived configuration (`PLIVO_PHONE_NUMBER`, `ASSOCIATE_NUMBER`,
  the callback base URL) becomes the `Config` structure; `defaultConfig`
  carries the hard-coded `os.getenv` fallback values from app.py.
* `request.form.get (key, default)` becomes an `Option String` argument plus
  `Option.getD`.
* Python dict lookups (`MESSAGES[...]`, `AUDIO_FILES[...]`) become
  association-list lookups returning `Option String`; a handler body runs in
  the `Option` monad, where `none` models an uncaught Python exception
  (e.g. `KeyError`) escaping the handler.
* Flask's `url_for (endpoint, _external := True)` becomes explicit string
  concatenation of the base URL with the route path.
-/

/-- One PlivoXML element, as produced by the `plivoxml` builder calls in
app.py. `getDigits` keeps the keyword arguments in source order
(action, method, timeout, num_digits, retries, valid_digits) followed by its
nested children; `dial` keeps (caller_id, timeout) and its `Number` children. -/
inductive XmlEl : Type
  | speak (content : String) (voice : String) (language : String)
  | play (url : String)
  | hangup
  | redirect (url : String) (method : String)
  | getDigits (action : String) (method : String) (timeout : Nat)
      (numDigits : Nat) (retries : Nat) (validDigits : String)
      (children : List XmlEl)
  | dial (callerId : String) (timeout : Nat) (numbers : List String)

/-- Environment-derived configuration of app.py (lines 27-30 and 122). -/
structure Config : Type where
  plivo_phone_number : String
  associate_number : String
  base_url : String
  deriving Repr, DecidableEq

/-- The `os.getenv` fallback values hard-coded in app.py, with a placeholder
local base URL. -/
def defaultConfig : Config :=
  ⟨"+14692463990", "+918031274121", "http://localhost:5000"⟩

/-- Python dict lookup on a string-keyed association list: `some` the value
when the key is present, `none` (a `KeyError`) otherwise. -/
def dictGet (d : List (String × String)) (k : String) : Option String :=
  (d.find? (fun p => p.1 == k)).map Prod.snd

/-- app.py lines 33-36: per-language audio catalog. -/
def AUDIO_FILES : List (String × String) :=
  [("english", "https://s3.amazonaws.com/plivocloud/Trumpet.mp3"),
   ("spanish", "https://s3.amazonaws.com/plivocloud/Trumpet.mp3")]

/-- app.py lines 43-46: `MESSAGES['welcome']`. -/
def MESSAGES_welcome : List (String × String) :=
  [("english", "Welcome to InspireWorks. "),
   ("spanish", "Bienvenido a InspireWorks. ")]

/-- app.py lines 47-50: `MESSAGES['language_select']` (adjacent Python string
literals concatenate). -/
def MESSAGES_language_select : String :=
  "Press 1 for English. Para Español, oprima 2. "

/-- app.py lines 51-62: `MESSAGES['main_menu']`. -/
def MESSAGES_main_menu : List (String × String) :=
  [("english", "You have selected English. Press 1 to hear a short audio message. Press 2 to speak with a live associate. "),
   ("spanish", "Ha seleccionado Español. Oprima 1 para escuchar un mensaje de audio. Oprima 2 para hablar con un asociado. ")]

/-- app.py lines 63-66: `MESSAGES['playing_audio']`. -/
def MESSAGES_playing_audio : List (String × String) :=
  [("english", "Now playing your audio message."),
   ("spanish", "Reproduciendo su mensaje de audio.")]

/-- app.py lines 67-70: `MESSAGES['connecting']`. -/
def MESSAGES_connecting : List (String × String) :=
  [("english", "Please wait while we connect you to a live associate."),
   ("spanish", "Por favor espere mientras lo conectamos con un asociado.")]

/-- app.py lines 71-74: `MESSAGES['invalid_input']`. -/
def MESSAGES_invalid_input : List (String × String) :=
  [("english", "Sorry, that is not a valid option. Please try again."),
   ("spanish", "Lo siento, esa no es una opción válida. Por favor intente de nuevo.")]

/-- app.py lines 75-78: `MESSAGES['no_input']`. -/
def MESSAGES_no_input : List (String × String) :=
  [("english", "We did not receive any input."),
   ("spanish", "No recibimos ninguna entrada.")]

/-- app.py lines 79-82: `MESSAGES['goodbye']`. -/
def MESSAGES_goodbye : List (String × String) :=
  [("english", "Thank you for calling InspireWorks. Goodbye!"),
   ("spanish", "Gracias por llamar a InspireWorks. ¡Adiós!")]

/-- `url_for ('ivr_welcome', _external := True)`: route of app.py line 151. -/
def url_for_ivr_welcome (c : Config) : String :=
  c.base_url ++ "/ivr/welcome"

/-- `url_for ('ivr_language_handler', _external := True)`: route of line 190. -/
def url_for_ivr_language_handler (c : Config) : String :=
  c.base_url ++ "/ivr/language-handler"

/-- `url_for ('ivr_main_menu', lang, _external := True)`: route of line 232. -/
def url_for_ivr_main_menu (c : Config) (lang : String) : String :=
  c.base_url ++ "/ivr/main-menu/" ++ lang

/-- `url_for ('ivr_menu_handler', lang, _external := True)`: route of line 279. -/
def url_for_ivr_menu_handler (c : Config) (lang : String) : String :=
  c.base_url ++ "/ivr/menu-handler/" ++ lang

/-- app.py lines 151-187, `ivr_welcome`: the level-1 language-selection
document. -/
def ivr_welcome (c : Config) : Option (List XmlEl) := do
  let welcome ← dictGet MESSAGES_welcome "english"
  let noInput ← dictGet MESSAGES_no_input "english"
  let goodbye ← dictGet MESSAGES_goodbye "english"
  pure [ .getDigits (url_for_ivr_language_handler c) "POST" 10 1 2 "12"
           [ .speak (welcome ++ MESSAGES_language_select) "Polly.Joanna" "en-US" ],
         .speak (noInput ++ " " ++ goodbye) "Polly.Joanna" "en-US",
         .hangup ]

/-- app.py lines 190-225, `ivr_language_handler`: consumes the `Digits` form
field (`request.form.get ('Digits', '')`, modelled as `digits.getD ""`). -/
def ivr_language_handler (c : Config) (digits : Option String) :
    Option (List XmlEl) :=
  let digit := digits.getD ""
  if digit = "1" then
    some [ .redirect (url_for_ivr_main_menu c "english") "GET" ]
  else if digit = "2" then
    some [ .redirect (url_for_ivr_main_menu c "spanish") "GET" ]
  else do
    let invalid ← dictGet MESSAGES_invalid_input "english"
    pure [ .speak invalid "Polly.Joanna" "en-US",
           .redirect (url_for_ivr_welcome c) "GET" ]

/-- app.py lines 232-276, `ivr_main_menu`: the level-2 menu document for a
path-segment language `lang0`, normalised to `english` when unrecognized. -/
def ivr_main_menu (c : Config) (lang0 : String) : Option (List XmlEl) :=
  let lang := if lang0 ∈ ["english", "spanish"] then lang0 else "english"
  let voice := if lang = "english" then "Polly.Joanna" else "Polly.Conchita"
  let voice_lang := if lang = "english" then "en-US" else "es-ES"
  do
  let menuMsg ← dictGet MESSAGES_main_menu lang
  let noInput ← dictGet MESSAGES_no_input lang
  let goodbye ← dictGet MESSAGES_goodbye lang
  pure [ .getDigits (url_for_ivr_menu_handler c lang) "POST" 10 1 2 "12"
           [ .speak menuMsg voice voice_lang ],
         .speak (noInput ++ " " ++ goodbye) voice voice_lang,
         .hangup ]

/-- app.py lines 279-350, `ivr_menu_handler`: consumes the `Digits` form field
for the level-2 menu; language normalised exactly as in `ivr_main_menu`. -/
def ivr_menu_handler (c : Config) (lang0 : String) (digits : Option String) :
    Option (List XmlEl) :=
  let lang := if lang0 ∈ ["english", "spanish"] then lang0 else "english"
  let voice := if lang = "english" then "Polly.Joanna" else "Polly.Conchita"
  let voice_lang := if lang = "english" then "en-US" else "es-ES"
  let digit := digits.getD ""
  if digit = "1" then do
    let playing ← dictGet MESSAGES_playing_audio lang
    let audio ← dictGet AUDIO_FILES lang
    let goodbye ← dictGet MESSAGES_goodbye lang
    pure [ .speak playing voice voice_lang,
           .play audio,
           .speak goodbye voice voice_lang,
           .hangup ]
  else if digit = "2" then do
    let connecting ← dictGet MESSAGES_connecting lang
    let goodbye ← dictGet MESSAGES_goodbye lang
    pure [ .speak connecting voice voice_lang,
           .dial c.plivo_phone_number 30 [c.associate_number],
           .speak goodbye voice voice_lang,
           .hangup ]
  else do
    let invalid ← dictGet MESSAGES_invalid_input lang
    pure [ .speak invalid voice voice_lang,
           .redirect (url_for_ivr_main_menu c lang) "GET" ]

/-- Outcome of `request.get_json ()` followed by `data.get ('target_number')`
in `make_call` (app.py lines 107-108).

`raises msg` models a request body that carries no JSON object: Flask 2.1+
raises `UnsupportedMediaType`/`BadRequest` from `get_json`, and older Flask
returns `None` so that `data.get` raises `AttributeError`; either exception is
swallowed by the `except Exception` clause at line 143.  `ok tn` models a JSON
object body, with `tn = none` when the `target_number` field is missing or
JSON `null`. -/
inductive GetJsonResult : Type
  | raises (msg : String)
  | ok (target_number : Option String)
  deriving Repr, DecidableEq

/-- Outcome of the single `client.calls.create` request (app.py lines
126-131), as seen through the handler's `except` clauses at lines 139-144. -/
inductive PlivoOutcome : Type
  | success (request_uuid : String)
  | validationError (msg : String)
  | plivoRestError (msg : String)
  | otherException (msg : String)
  deriving Repr, DecidableEq

/-- The keyword arguments of one `client.calls.create` request
(app.py lines 126-131). -/
structure OutboundCall : Type where
  from_number : String
  to_number : String
  answer_url : String
  answer_method : String
  deriving Repr, DecidableEq

/-- A `jsonify (...)` response of `make_call`, with its HTTP status code and
the JSON fields it may carry. -/
structure ApiResponse : Type where
  status : Nat
  success : Bool
  message : Option String
  error : Option String
  call_uuid : Option String
  deriving Repr, DecidableEq

/-- Result of one `make_call` invocation: the HTTP response plus the list of
`calls.create` requests actually issued during the invocation. -/
structure MakeCallResult : Type where
  resp : ApiResponse
  outbound : List OutboundCall
  deriving Repr, DecidableEq

/-- Python's `str.startswith`: `startswith pre s` is true iff `pre` is a
prefix of `s` (structural, character-by-character). -/
def startswith (pre s : String) : Bool :=
  pre.data.isPrefixOf s.data

/-- app.py lines 99-144, `make_call`: `body` is the parsed request body and
`plivo` is the provider's reaction to the (at most one) `calls.create`
request.  Python truthiness of `target_number` (`None` or `""` are falsy) is
modelled by comparing `tn.getD ""` with `""`. -/
def make_call (c : Config) (body : GetJsonResult) (plivo : PlivoOutcome) :
    MakeCallResult :=
  match body with
  | .raises msg => ⟨⟨500, false, none, some msg, none⟩, []⟩
  | .ok tn =>
    let target_number := tn.getD ""
    if target_number = "" then
      ⟨⟨400, false, none, some "Target number is required", none⟩, []⟩
    else
      let target_number :=
        if startswith "+" target_number then target_number
        else "+" ++ target_number
      let answer_url := c.base_url ++ "/ivr/welcome"
      let req : OutboundCall :=
        ⟨c.plivo_phone_number, target_number, answer_url, "GET"⟩
      match plivo with
      | .success uuid =>
          ⟨⟨200, true, some ("Call initiated to " ++ target_number), none,
             some uuid⟩, [req]⟩
      | .validationError m =>
          ⟨⟨400, false, none, some ("Validation error: " ++ m), none⟩, [req]⟩
      | .plivoRestError m =>
          ⟨⟨500, false, none, some ("Plivo API error: " ++ m), none⟩, [req]⟩
      | .otherException m =>
          ⟨⟨500, false, none, some m, none⟩, [req]⟩

/-- The body of the `/health` JSON response (app.py lines 357-363). -/
structure HealthResponse : Type where
  status : Nat
  body_status : String
  body_service : String
  deriving Repr, DecidableEq

/-- app.py lines 357-363, `health_check`: reads nothing from the
configuration or any other state. -/
def health_check (_c : Config) : HealthResponse :=
  ⟨200, "healthy", "InspireWorks IVR Demo"⟩

/-- The document `ivr_language_handler` emits on an unrecognized digit
(app.py lines 213-223): speak the invalid-input message, then redirect back
to the language-selection responder. -/
def language_invalid_doc (c : Config) : List XmlEl :=
  [ .speak "Sorry, that is not a valid option. Please try again."
      "Polly.Joanna" "en-US",
    .redirect (url_for_ivr_welcome c) "GET" ]

/-- The document `ivr_menu_handler` emits on an unrecognized digit for a
recognized (already-normalised) language (app.py lines 338-348): speak the
invalid-input message in that language, then redirect back to the main-menu
responder for the same language. -/
def menu_invalid_doc (c : Config) (lang : String) : List XmlEl :=
  [ .speak ((dictGet MESSAGES_invalid_input lang).getD "")
      (if lang = "english" then "Polly.Joanna" else "Polly.Conchita")
      (if lang = "english" then "en-US" else "es-ES"),
    .redirect (url_for_ivr_main_menu c lang) "GET" ]

/-- The urls of the `Play` elements of a document, in order. -/
def playedUrls (doc : List XmlEl) : List String :=
  doc.filterMap (fun e =>
    match e with
    | XmlEl.play u => some u
    | _ => none)

/-- A provider validation message is never confused with the missing-input
message: the two strings differ in their first character. -/
theorem validation_error_message_distinct (vm : String) :
    "Validation error: " ++ vm ≠ "Target number is required" := by
  intro h
  obtain ⟨d⟩ := vm
  have h2 := congrArg (fun s => s.data.head?) h
  have h3 : (some 'V' : Option Char) = some 'T' := h2
  exact absurd h3 (by decide)

/-- C1: at either menu step, every digit value outside `{1, 2}` (including
the empty string produced when the `Digits` field is absent) yields `some`
markup document (never an exception) that speaks the invalid-input message
and redirects back to the responder for that same step. -/
theorem invalid_digit_reprompts_same_step (c : Config) (digits : Option String)
    (h1 : digits.getD "" ≠ "1") (h2 : digits.getD "" ≠ "2") :
    ivr_language_handler c digits = some (language_invalid_doc c) ∧
    ∀ lang0 : String,
      ivr_menu_handler c lang0 digits =
        some (menu_invalid_doc c
          (if lang0 = "spanish" then "spanish" else "english")) := by
  constructor
  · simp only [ivr_language_handler]
    rw [if_neg h1, if_neg h2]
    rfl
  · intro lang0
    by_cases hs : lang0 = "spanish"
    · subst hs
      simp only [ivr_menu_handler]
      rw [if_neg h1, if_neg h2]
      rfl
    · by_cases he : lang0 = "english"
      · subst he
        simp only [ivr_menu_handler]
        rw [if_neg h1, if_neg h2]
        rfl
      · simp only [ivr_menu_handler]
        rw [if_neg (by simp [List.mem_cons, he, hs] :
              ¬ lang0 ∈ (["english", "spanish"] : List String))]
        rw [if_neg h1, if_neg h2]
        simp only [if_neg hs]
        rfl

/-- Witness for C1 at digit `9`, at both steps. -/
theorem invalid_digit_reprompts_same_step_witness :
    ivr_language_handler defaultConfig (some "9") =
      some (language_invalid_doc defaultConfig) ∧
    ivr_menu_handler defaultConfig "spanish" (some "9") =
      some (menu_invalid_doc defaultConfig "spanish") :=
  ⟨(invalid_digit_reprompts_same_step defaultConfig (some "9")
      (by decide) (by decide)).1,
   (invalid_digit_reprompts_same_step defaultConfig (some "9")
      (by decide) (by decide)).2 "spanish"⟩

/-- C2: at the language step, digit `1` yields exactly a redirect to the
main-menu endpoint for `english`, and digit `2` exactly a redirect to the
main-menu endpoint for `spanish`. -/
theorem language_digit_routes_to_main_menu (c : Config) :
    ivr_language_handler c (some "1") =
      some [XmlEl.redirect (url_for_ivr_main_menu c "english") "GET"] ∧
    ivr_language_handler c (some "2") =
      some [XmlEl.redirect (url_for_ivr_main_menu c "spanish") "GET"] :=
  ⟨rfl, rfl⟩

/-- C3: for each recognized language, main-menu digit `1` yields, in order,
a now-playing speak, a play, a goodbye speak and a hangup; digit `2` yields
a connecting speak, a dial to the fixed associate number with a 30-second
ring timeout, a goodbye speak and a hangup. -/
theorem menu_digits_play_and_dial (c : Config) :
    (ivr_menu_handler c "english" (some "1") =
       some [ .speak "Now playing your audio message." "Polly.Joanna" "en-US",
              .play "https://s3.amazonaws.com/plivocloud/Trumpet.mp3",
              .speak "Thank you for calling InspireWorks. Goodbye!"
                "Polly.Joanna" "en-US",
              .hangup ]) ∧
    (ivr_menu_handler c "spanish" (some "1") =
       some [ .speak "Reproduciendo su mensaje de audio."
                "Polly.Conchita" "es-ES",
              .play "https://s3.amazonaws.com/plivocloud/Trumpet.mp3",
              .speak "Gracias por llamar a InspireWorks. ¡Adiós!"
                "Polly.Conchita" "es-ES",
              .hangup ]) ∧
    (ivr_menu_handler c "english" (some "2") =
       some [ .speak "Please wait while we connect you to a live associate."
                "Polly.Joanna" "en-US",
              .dial c.plivo_phone_number 30 [c.associate_number],
              .speak "Thank you for calling InspireWorks. Goodbye!"
                "Polly.Joanna" "en-US",
              .hangup ]) ∧
    (ivr_menu_handler c "spanish" (some "2") =
       some [ .speak "Por favor espere mientras lo conectamos con un asociado."
                "Polly.Conchita" "es-ES",
              .dial c.plivo_phone_number 30 [c.associate_number],
              .speak "Gracias por llamar a InspireWorks. ¡Adiós!"
                "Polly.Conchita" "es-ES",
              .hangup ]) :=
  ⟨rfl, rfl, rfl, rfl⟩

/-- C4: the main-menu responder treats every unrecognized language value
exactly like `english` (so any serialization of the two documents is
byte-identical), and the recognized-language document always exists — the
responder never fails over a bad language tag. -/
theorem main_menu_unknown_lang_defaults_to_english (c : Config)
    (lang0 : String) (h1 : lang0 ≠ "english") (h2 : lang0 ≠ "spanish") :
    ivr_main_menu c lang0 = ivr_main_menu c "english" ∧
    (ivr_main_menu c "english").isSome = true := by
  constructor
  · simp only [ivr_main_menu]
    rw [if_neg (by simp [List.mem_cons, h1, h2] :
          ¬ lang0 ∈ (["english", "spanish"] : List String))]
    rfl
  · rfl

/-- Witness for C4 at the unrecognized language value `french`. -/
theorem main_menu_unknown_lang_defaults_to_english_witness :
    ivr_main_menu defaultConfig "french" = ivr_main_menu defaultConfig "english" ∧
    (ivr_main_menu defaultConfig "english").isSome = true :=
  main_menu_unknown_lang_defaults_to_english defaultConfig "french"
    (by decide) (by decide)

/-- C5 counterexample: a POST whose body carries no JSON object at all
(`request.get_json` raises, or returns `None` so `data.get` raises) is
answered by the blanket `except Exception` clause with HTTP 500, not with
the HTTP 400 InputError response the claim asserts. -/
theorem make_call_empty_body_counterexample :
    (make_call defaultConfig (GetJsonResult.raises "Unsupported Media Type")
       (PlivoOutcome.success "u")).resp.status = 500 ∧
    (make_call defaultConfig (GetJsonResult.raises "Unsupported Media Type")
       (PlivoOutcome.success "u")).resp.status ≠ 400 ∧
    (make_call defaultConfig (GetJsonResult.raises "Unsupported Media Type")
       (PlivoOutcome.success "u")).resp.error ≠
      some "Target number is required" :=
  ⟨rfl, by decide, by decide⟩

/-- C5 amended: a POST whose body parses as a JSON object with no
`target_number` returns HTTP 400 with the descriptive message
`Target number is required` (and issues no outbound call); a POST with no
JSON payload at all is converted by the blanket exception handler into an
HTTP 500 instead. -/
theorem make_call_missing_target_number_amended (c : Config)
    (p : PlivoOutcome) (emsg : String) :
    make_call c (GetJsonResult.ok none) p =
      ⟨⟨400, false, none, some "Target number is required", none⟩, []⟩ ∧
    (make_call c (GetJsonResult.raises emsg) p).resp.status = 500 :=
  ⟨rfl, rfl⟩

/-- C6: for every non-empty target number, the destination used in the one
outbound `calls.create` request is the input with `+` prepended exactly once
when it was absent, and the input unchanged when already present; nothing
else about the request depends on the digits supplied. -/
theorem make_call_normalizes_target_number (c : Config) (tn : String)
    (p : PlivoOutcome) (h : tn ≠ "") :
    (make_call c (GetJsonResult.ok (some tn)) p).outbound =
      [⟨c.plivo_phone_number,
        (if startswith "+" tn then tn else "+" ++ tn),
        c.base_url ++ "/ivr/welcome", "GET"⟩] := by
  cases p <;> simp [make_call, h]

/-- Witness for C6: a number without `+` gets it prepended exactly once. -/
theorem make_call_normalizes_target_number_witness :
    (make_call defaultConfig (GetJsonResult.ok (some "14155550100"))
       (PlivoOutcome.success "u")).outbound =
      [⟨"+14692463990", "+14155550100",
        "http://localhost:5000/ivr/welcome", "GET"⟩] := by
  have h := make_call_normalizes_target_number defaultConfig "14155550100"
    (PlivoOutcome.success "u") (by decide)
  rw [h]
  rfl

/-- C7: the three error kinds of `make_call` are distinguishable structured
results — missing input is HTTP 400 with the fixed required-field message
and no outbound request, provider validation failure is HTTP 400 carrying
the provider's message, any other provider failure is HTTP 500 carrying the
error detail — and the call-placement request is issued exactly once in the
provider-failure cases and never more than once in any invocation. -/
theorem make_call_error_taxonomy (c : Config) (tn vm rm : String)
    (p : PlivoOutcome) (h : tn ≠ "") :
    ((make_call c (GetJsonResult.ok (some tn))
        (PlivoOutcome.validationError vm)).resp.status = 400 ∧
     (make_call c (GetJsonResult.ok (some tn))
        (PlivoOutcome.validationError vm)).resp.error =
       some ("Validation error: " ++ vm) ∧
     (make_call c (GetJsonResult.ok (some tn))
        (PlivoOutcome.validationError vm)).outbound.length = 1) ∧
    ((make_call c (GetJsonResult.ok (some tn))
        (PlivoOutcome.plivoRestError rm)).resp.status = 500 ∧
     (make_call c (GetJsonResult.ok (some tn))
        (PlivoOutcome.plivoRestError rm)).resp.error =
       some ("Plivo API error: " ++ rm) ∧
     (make_call c (GetJsonResult.ok (some tn))
        (PlivoOutcome.plivoRestError rm)).outbound.length = 1) ∧
    ((make_call c (GetJsonResult.ok none) p).resp.status = 400 ∧
     (make_call c (GetJsonResult.ok none) p).resp.error =
       some "Target number is required" ∧
     (make_call c (GetJsonResult.ok none) p).outbound.length = 0) ∧
    ("Validation error: " ++ vm ≠ "Target number is required") ∧
    (∀ (b : GetJsonResult) (q : PlivoOutcome),
      (make_call c b q).outbound.length ≤ 1) := by
  refine ⟨⟨?_, ?_, ?_⟩, ⟨?_, ?_, ?_⟩, ⟨rfl, rfl, rfl⟩,
    validation_error_message_distinct vm, ?_⟩
  · simp [make_call, h]
  · simp [make_call, h]
  · simp [make_call, h]
  · simp [make_call, h]
  · simp [make_call, h]
  · simp [make_call, h]
  · intro b q
    cases b with
    | raises m => simp [make_call]
    | ok tn2 =>
      by_cases h0 : tn2.getD "" = ""
      · simp [make_call, h0]
      · cases q <;> simp [make_call, h0]

/-- Witness for C7 at concrete inputs. -/
theorem make_call_error_taxonomy_witness :
    ((make_call defaultConfig (GetJsonResult.ok (some "5551234"))
        (PlivoOutcome.validationError "bad params")).resp.status = 400 ∧
     (make_call defaultConfig (GetJsonResult.ok (some "5551234"))
        (PlivoOutcome.validationError "bad params")).resp.error =
       some ("Validation error: " ++ "bad params") ∧
     (make_call defaultConfig (GetJsonResult.ok (some "5551234"))
        (PlivoOutcome.validationError "bad params")).outbound.length = 1) ∧
    ((make_call defaultConfig (GetJsonResult.ok (some "5551234"))
        (PlivoOutcome.plivoRestError "server down")).resp.status = 500 ∧
     (make_call defaultConfig (GetJsonResult.ok (some "5551234"))
        (PlivoOutcome.plivoRestError "server down")).resp.error =
       some ("Plivo API error: " ++ "server down") ∧
     (make_call defaultConfig (GetJsonResult.ok (some "5551234"))
        (PlivoOutcome.plivoRestError "server down")).outbound.length = 1) ∧
    ((make_call defaultConfig (GetJsonResult.ok none)
        (PlivoOutcome.success "u")).resp.status = 400 ∧
     (make_call defaultConfig (GetJsonResult.ok none)
        (PlivoOutcome.success "u")).resp.error =
       some "Target number is required" ∧
     (make_call defaultConfig (GetJsonResult.ok none)
        (PlivoOutcome.success "u")).outbound.length = 0) ∧
    ("Validation error: " ++ "bad params" ≠ "Target number is required") ∧
    (make_call defaultConfig (GetJsonResult.raises "boom")
       (PlivoOutcome.success "u")).outbound.length ≤ 1 := by
  have h := make_call_error_taxonomy defaultConfig "5551234" "bad params"
    "server down" (PlivoOutcome.success "u") (by decide)
  exact ⟨h.1, h.2.1, h.2.2.1, h.2.2.2.1,
    h.2.2.2.2 (GetJsonResult.raises "boom") (PlivoOutcome.success "u")⟩

/-- C8: `/health` always returns HTTP 200 with the fixed payload
`{status: healthy, service: InspireWorks IVR Demo}`, independent of the
configuration. -/
theorem health_check_fixed (c c2 : Config) :
    health_check c = ⟨200, "healthy", "InspireWorks IVR Demo"⟩ ∧
    health_check c = health_check c2 :=
  ⟨rfl, rfl⟩

/-- C9: a JSON body whose `target_number` is the empty string (or `null`,
i.e. `data.get` yields `None`) is treated identically to a missing field:
HTTP 400 with the required-field message, and no outbound request is
issued. -/
theorem make_call_falsy_target_number_rejected (c : Config)
    (p : PlivoOutcome) :
    make_call c (GetJsonResult.ok (some "")) p =
      make_call c (GetJsonResult.ok none) p ∧
    (make_call c (GetJsonResult.ok none) p).resp.status = 400 ∧
    (make_call c (GetJsonResult.ok none) p).resp.error =
      some "Target number is required" ∧
    (make_call c (GetJsonResult.ok none) p).outbound = [] :=
  ⟨rfl, rfl, rfl, rfl⟩

/-- C10: the per-language audio catalog maps both recognized languages to
one identical URL, so the `Play` element emitted on main-menu digit `1` is
the same for both languages. -/
theorem audio_catalog_single_url (c : Config) :
    dictGet AUDIO_FILES "english" = dictGet AUDIO_FILES "spanish" ∧
    dictGet AUDIO_FILES "english" =
      some "https://s3.amazonaws.com/plivocloud/Trumpet.mp3" ∧
    (ivr_menu_handler c "english" (some "1")).map playedUrls =
      some ["https://s3.amazonaws.com/plivocloud/Trumpet.mp3"] ∧
    (ivr_menu_handler c "spanish" (some "1")).map playedUrls =
      some ["https://s3.amazonaws.com/plivocloud/Trumpet.mp3"] :=
  ⟨rfl, rfl, rfl, rfl⟩
